import Mathlib

set_option allowUnsafeReducibility true
attribute [local semireducible] Rat.mul Rat.add Rat.sub Rat.div Rat.inv Rat.neg

/-!
Shallow embedding of `claude_usage.py` (Claude Code usage monitor, a
menu-bar polling app).

Conventions of the embedding:
* Python floats that hold exact decimal values (thresholds, utilization
  percentages) are modelled as rationals `ℚ`.
* Python `int(x)` (truncation toward zero) is `pyInt`; the f-string
  percent format `f"{x:.0%}"` is modelled by `pyPct` (rounding to the
  nearest integer; the tie-breaking direction of binary floats is not
  modelled, no claim depends on it). `str.startswith` and slicing
  `s[:n]` are modelled on the character list of the string (`pyTake`,
  `pyStartsWith`), which matches Python's by-character semantics.
* The JSON response object is `Usage`: the two keys the program reads as
  optional fields, plus a flag recording whether the dict has any other
  key, so that Python dict truthiness (`if not usage:`) is expressible.
* External effects are environments passed in: one keychain-read outcome
  per `security` invocation (`none` covers timeout, nonzero exit, parse
  failure and an absent token field — all retryable alike), one
  `HttpResult` per HTTP request issued, and timestamp parsing as a
  function `String → Option Int` returning the truncated whole-second
  delta `int((reset - now).total_seconds())` (`none` where
  `datetime.fromisoformat` raises).
* `rumps.notification("Claude Usage Monitor", title, message)` calls are
  collected in returned lists as `⟨title, message⟩`.
* `time.sleep` durations inside the fetch retry loop are accumulated in
  the returned `slept` field, so retry-delay behaviour is observable.
-/

/-- `POLL_INTERVAL = 120` seconds. -/
def POLL_INTERVAL : Nat := 120

/-- `MAX_RETRIES = 3`. -/
def MAX_RETRIES : Nat := 3

/-- `RETRY_DELAY = 5` seconds between retries. -/
def RETRY_DELAY : Nat := 5

/-- `THRESHOLDS['warning'] = 0.70`. -/
def warningThreshold : ℚ := 70/100

/-- `THRESHOLDS['danger'] = 0.85`. -/
def dangerThreshold : ℚ := 85/100

/-- `THRESHOLDS['critical'] = 0.95`. -/
def criticalThreshold : ℚ := 95/100

/-- The `THRESHOLDS` dict in its Python insertion order, as iterated by
`THRESHOLDS.items()`. -/
def THRESHOLDS : List (String × ℚ) :=
  [("warning", warningThreshold), ("danger", dangerThreshold), ("critical", criticalThreshold)]

/-- Python `int()` on a rational: truncation toward zero. -/
def pyInt (q : ℚ) : Int := q.num.tdiv q.den

/-- Model of the f-string format `f"{q:.0%}"`: the percentage rounded to
the nearest whole number, followed by `%`. -/
def pyPct (q : ℚ) : String := toString (round (q * 100)) ++ "%"

/-- Python slicing `s[:n]` (by characters). -/
def pyTake (s : String) (n : Nat) : String := ⟨s.data.take n⟩

/-- Python `s.startswith(pre)` (by characters). -/
def pyStartsWith (s pre : String) : Bool := pre.data.isPrefixOf s.data

/-- One `rumps.notification("Claude Usage Monitor", title, message)`
call: the two variable arguments. -/
structure Notification where
  title : String
  message : String
  deriving DecidableEq

/-- The value of a `five_hour` / `seven_day` JSON sub-object: the two
keys the program reads, each possibly absent. -/
structure Metric where
  utilization : Option ℚ
  resets_at : Option String
  deriving DecidableEq

/-- The `dict.get(key, {})` default for a missing metric sub-object. -/
def emptyMetric : Metric := ⟨none, none⟩

/-- A JSON usage-response object: the two keys the program reads, plus
whether the dict holds any other key (needed only for Python truthiness
of the dict). -/
structure Usage where
  five_hour : Option Metric
  seven_day : Option Metric
  otherKeys : Bool
  deriving DecidableEq

/-- Python truthiness of a usage dict: it is non-empty. -/
def Usage.truthy (u : Usage) : Bool :=
  u.five_hour.isSome || u.seven_day.isSome || u.otherKeys

/-- Python truthiness of an optional usage dict (`None` and `{}` are both
falsy); returns the dict exactly when it is truthy. -/
def truthyUsage? : Option Usage → Option Usage
  | none => none
  | some u => if u.truthy then some u else none

/-- Python truthiness of the stored `self.token` (`None` and `""` falsy). -/
def tokenTruthy : Option String → Bool
  | none => false
  | some t => !t.isEmpty

/-- `oauth.get('accessToken')` followed by `if token:`: a keychain read
yields a usable token only when the field is present and truthy. -/
def tokenOk : Option String → Option String
  | none => none
  | some t => if t.isEmpty then none else some t

/-- The mutable state of the `ClaudeUsageApp` instance: the credential
cache, threshold-notification bookkeeping, the failure counter, the
usage cache, the auth-notification counter, and the display strings
(the menu-bar `title` and the four menu-item titles). -/
structure MonState where
  token : Option String
  notified_levels : Finset String
  consecutive_failures : Nat
  last_known_usage : Option Usage
  token_refresh_attempts : Nat
  title : String
  five_hour_title : String
  weekly_title : String
  status_title : String
  updated_title : String
  deriving DecidableEq

/-- The state set up by `__init__`. -/
def initState : MonState where
  token := none
  notified_levels := ∅
  consecutive_failures := 0
  last_known_usage := none
  token_refresh_attempts := 0
  title := "⏳"
  five_hour_title := "5h Limit: --"
  weekly_title := "Weekly: --"
  status_title := "Status: Starting..."
  updated_title := "Updated: --"

/-- The notification sent when `get_token` exhausts its retries with
`token_refresh_attempts == 0`. -/
def authNotification : Notification :=
  ⟨"Authentication Required", "Run \x27claude\x27 in terminal first to authenticate."⟩

/-- What a `get_token` call returns: the token (or `None`), the mutated
state, and the notifications sent. -/
structure GTResult where
  token? : Option String
  state : MonState
  notifs : List Notification
  deriving DecidableEq

/-- `get_token(self, force_refresh)`. `env` lists the outcome of each
keychain read the loop would perform (the loop makes `MAX_RETRIES`
attempts; entries beyond the list are failures). On the first outcome
with a truthy token the loop returns it, caching it and zeroing
`token_refresh_attempts`; after all attempts fail it notifies once iff
`token_refresh_attempts == 0` (then increments it) and returns `None`.
The `time.sleep(RETRY_DELAY)` between keychain attempts is not modelled
(no claim concerns it). -/
def get_token (env : List (Option String)) (force_refresh : Bool) (s : MonState) : GTResult :=
  if tokenTruthy s.token && !force_refresh then ⟨s.token, s, []⟩
  else
    match (env.take MAX_RETRIES).findSome? tokenOk with
    | some t => ⟨some t, { s with token := some t, token_refresh_attempts := 0 }, []⟩
    | none =>
      if s.token_refresh_attempts = 0 then
        ⟨none, { s with token_refresh_attempts := s.token_refresh_attempts + 1 },
          [authNotification]⟩
      else ⟨none, s, []⟩

/-- The outcome of one `requests.get` call in `fetch_usage`:
a network timeout, a connection error, a response with a status code
(and, for success responses, the parsed JSON body), or any other
exception (including a body that fails to parse), which the generic
`except Exception` treats as retryable. -/
inductive HttpResult where
  | timeout
  | connError
  | status (code : Nat) (body : Usage)
  | exc
  deriving DecidableEq

/-- The environment of one `fetch_usage` call: the keychain outcomes for
the initial `get_token`, one `HttpResult` per HTTP request issued, and
one keychain-outcome list per 401-triggered forced refresh. -/
structure FetchEnv where
  tokenEnv : List (Option String)
  http : List HttpResult
  refreshEnvs : List (List (Option String))
  deriving DecidableEq

/-- What a `fetch_usage` call returns: the parsed body (or `None`), the
mutated state, the notifications sent, and the total seconds slept in
`time.sleep(RETRY_DELAY)` calls of its retry loop. -/
structure FetchResult where
  usage? : Option Usage
  state : MonState
  notifs : List Notification
  slept : Nat
  deriving DecidableEq

/-- The `for attempt in range(MAX_RETRIES):` loop of `fetch_usage`,
recursing on the number of loop iterations left (`remaining =
MAX_RETRIES - attempt`, so the `if attempt < MAX_RETRIES - 1:
time.sleep(RETRY_DELAY)` guard is `1 ≤ remaining - 1` at the head).
A missing entry of `http` behaves like a generic exception. Cases, as
in the source: 401 → clear the token, force-refresh, return `None` if
that fails, else `continue` (which advances `attempt` and skips the
sleep); other 4xx/5xx raise `HTTPError`, retried iff the code is ≥ 500;
timeout / connection error / other exceptions are retried; any
non-raising response is parsed, cached, zeroes `consecutive_failures`
and is returned. Exhausting the loop increments
`consecutive_failures` and returns `None`. -/
def fetch_attempts : Nat → List HttpResult → List (List (Option String)) → String →
    MonState → List Notification → Nat → FetchResult
  | 0, _, _, _, s, notifs, slept =>
    ⟨none, { s with consecutive_failures := s.consecutive_failures + 1 }, notifs, slept⟩
  | remaining + 1, http, refreshEnvs, token, s, notifs, slept =>
    let retrySleep := if 1 ≤ remaining then RETRY_DELAY else 0
    match http with
    | [] => fetch_attempts remaining [] refreshEnvs token s notifs (slept + retrySleep)
    | r :: rest =>
      match r with
      | .timeout => fetch_attempts remaining rest refreshEnvs token s notifs (slept + retrySleep)
      | .connError => fetch_attempts remaining rest refreshEnvs token s notifs (slept + retrySleep)
      | .exc => fetch_attempts remaining rest refreshEnvs token s notifs (slept + retrySleep)
      | .status code body =>
        if code = 401 then
          let gt := get_token (refreshEnvs.headD []) true { s with token := none }
          match gt.token? with
          | none => ⟨none, gt.state, notifs ++ gt.notifs, slept⟩
          | some t2 =>
            fetch_attempts remaining rest refreshEnvs.tail t2 gt.state (notifs ++ gt.notifs) slept
        else if 400 ≤ code ∧ code < 600 then
          if 500 ≤ code then
            fetch_attempts remaining rest refreshEnvs token s notifs (slept + retrySleep)
          else ⟨none, s, notifs, slept⟩
        else
          ⟨some body, { s with last_known_usage := some body, consecutive_failures := 0 },
            notifs, slept⟩

/-- `fetch_usage(self)`: obtain a token (no force-refresh); `None` if
unavailable; otherwise run the retry loop. -/
def fetch_usage (env : FetchEnv) (s : MonState) : FetchResult :=
  let gt := get_token env.tokenEnv false s
  match gt.token? with
  | none => ⟨none, gt.state, gt.notifs, 0⟩
  | some t => fetch_attempts MAX_RETRIES env.http env.refreshEnvs t gt.state gt.notifs 0

/-- The level-specific notification built inside `check_thresholds`
(the `else` branch of the `elif` chain is the warning wording). -/
def levelNotification (level label : String) (pct : ℚ) : Notification :=
  if level = "critical" then
    ⟨"Usage Critical!", "You\x27ve used " ++ pyPct pct ++ " of your " ++ label ++ ". Consider pausing."⟩
  else if level = "danger" then
    ⟨"Usage High", "You\x27ve used " ++ pyPct pct ++ " of your " ++ label ++ "."⟩
  else
    ⟨"Usage Warning", "You\x27ve reached " ++ pyPct pct ++ " of your " ++ label ++ "."⟩

/-- The `for level, threshold in THRESHOLDS.items():` loop of
`check_thresholds`: for each level whose threshold is met and whose key
`f"{label}_{level}"` is not yet in `notified_levels`, add the key and
send the level's notification. -/
def checkLevels : List (String × ℚ) → ℚ → String → Finset String →
    Finset String × List Notification
  | [], _, _, fired => (fired, [])
  | (level, threshold) :: rest, pct, label, fired =>
    let key := label ++ "_" ++ level
    if threshold ≤ pct ∧ key ∉ fired then
      let p := checkLevels rest pct label (insert key fired)
      (p.1, levelNotification level label pct :: p.2)
    else
      checkLevels rest pct label fired

/-- `check_thresholds(self, pct, label)`: the loop over `THRESHOLDS`
followed by the hysteresis reset (`if pct < THRESHOLDS['warning']:`
keep only the keys not starting with `label`). Returns the new
`notified_levels` and the notifications sent. -/
def check_thresholds (pct : ℚ) (label : String) (fired : Finset String) :
    Finset String × List Notification :=
  let p := checkLevels THRESHOLDS pct label fired
  if pct < warningThreshold then
    (p.1.filter (fun k => pyStartsWith k label = false), p.2)
  else p

/-- `format_reset(self, iso_time)`. The `datetime` machinery is the
injected `parse` (see the module comment). Python's `if not iso_time:`
is falsy for both `None` and the empty string; on a parse failure the
fallback `iso_time[:16] if len(iso_time) > 16 else iso_time` is
`pyTake s 16` in both cases. All arithmetic is on the non-negative
truncated second count, where Python's `divmod`/`//` agree with `Int`
division. -/
def format_reset (parse : String → Option Int) (iso_time : Option String) : String :=
  match iso_time with
  | none => "unknown"
  | some s =>
    if s.isEmpty then "unknown"
    else
      match parse s with
      | none => pyTake s 16
      | some total_seconds =>
        if total_seconds < 0 then "soon"
        else
          let hours := total_seconds / 3600
          let minutes := total_seconds % 3600 / 60
          if 24 < hours then "in " ++ toString (hours / 24) ++ "d"
          else if 0 < hours then "in " ++ toString hours ++ "h " ++ toString minutes ++ "m"
          else "in " ++ toString minutes ++ "m"

/-- `get_icon(self, pct)`. -/
def get_icon (pct : ℚ) : String :=
  if criticalThreshold ≤ pct then "🔴"
  else if dangerThreshold ≤ pct then "🟠"
  else if warningThreshold ≤ pct then "🟡"
  else "🟢"

/-- `get_title(self, five_pct, week_pct)`:
`f"{five_icon}{five_num} {week_icon}{week_num}"`. -/
def get_title (five_pct week_pct : ℚ) : String :=
  get_icon five_pct ++ toString (pyInt (five_pct * 100)) ++ " " ++
    get_icon week_pct ++ toString (pyInt (week_pct * 100))

/-- Lines 198–218 of `refresh` (shared by the fresh and the cached
path): read the two metric sub-objects with `{}` defaults, derive the
percentages with `utilization` defaulting to 0, format both reset
times, set the four display strings and the menu-bar title, then run
`check_thresholds` for `"5h limit"` and `"Weekly limit"` in that
order. Note the source sets `status_item.title = "Status: Connected"`
on this path unconditionally (overwriting the transient Cached text).
Returns the new state and the threshold notifications sent. -/
def renderUsage (parse : String → Option Int) (now : String) (usage : Usage) (s : MonState) :
    MonState × List Notification :=
  let five_hour := usage.five_hour.getD emptyMetric
  let weekly := usage.seven_day.getD emptyMetric
  let five_pct := five_hour.utilization.getD 0 / 100
  let week_pct := weekly.utilization.getD 0 / 100
  let five_reset := format_reset parse five_hour.resets_at
  let week_reset := format_reset parse weekly.resets_at
  let s1 := { s with
    five_hour_title := "5h: " ++ pyPct five_pct ++ " used • resets " ++ five_reset,
    weekly_title := "Weekly: " ++ pyPct week_pct ++ " used • resets " ++ week_reset,
    status_title := "Status: Connected",
    updated_title := "Updated: " ++ now,
    title := get_title five_pct week_pct }
  let p1 := check_thresholds five_pct "5h limit" s1.notified_levels
  let p2 := check_thresholds week_pct "Weekly limit" p1.1
  ({ s1 with notified_levels := p2.1 }, p1.2 ++ p2.2)

/-- `show_error_state(self, message)`: set the status and attempt-time
lines; keep showing the last known percentages behind a warning glyph
when the cache is truthy, else a bare warning glyph. -/
def show_error_state (message now : String) (s : MonState) : MonState :=
  let s1 := { s with
    status_title := "Status: " ++ message,
    updated_title := "Last attempt: " ++ now }
  match truthyUsage? s1.last_known_usage with
  | some u =>
    let five_pct := (u.five_hour.getD emptyMetric).utilization.getD 0 / 100
    let week_pct := (u.seven_day.getD emptyMetric).utilization.getD 0 / 100
    { s1 with title := "⚠️" ++ toString (pyInt (five_pct * 100)) ++ " " ++
        toString (pyInt (week_pct * 100)) }
  | none => { s1 with title := "⚠️" }

/-- The transient `status_item.title` assignment of the cached branch of
`refresh` (`f"Status: Cached (retry {self.consecutive_failures})"`). -/
def cachedStatus (s : MonState) : MonState :=
  { s with status_title :=
      "Status: Cached (retry " ++ toString s.consecutive_failures ++ ")" }

/-- The branch of `refresh` taken once `fetch_usage` has returned: a
truthy body is rendered; a falsy one falls back to the cache when the
cache is truthy and `consecutive_failures < 5` (setting the transient
Cached status line first, later overwritten inside `renderUsage`), and
otherwise renders the hard error state. -/
def refreshAfterFetch (parse : String → Option Int) (now : String) (r : FetchResult) :
    MonState × List Notification :=
  match truthyUsage? r.usage? with
  | some u =>
    let p := renderUsage parse now u r.state
    (p.1, r.notifs ++ p.2)
  | none =>
    match truthyUsage? r.state.last_known_usage with
    | some u =>
      if r.state.consecutive_failures < 5 then
        let p := renderUsage parse now u (cachedStatus r.state)
        (p.1, r.notifs ++ p.2)
      else (show_error_state "Connection failed" now r.state, r.notifs)
    | none => (show_error_state "Connection failed" now r.state, r.notifs)

/-- `refresh(self)`: fetch, then render (fresh, cached or error). `now`
is `datetime.now().strftime('%H:%M')`. Returns the new state and all
notifications sent during the cycle. -/
def refresh (env : FetchEnv) (parse : String → Option Int) (now : String) (s : MonState) :
    MonState × List Notification :=
  refreshAfterFetch parse now (fetch_usage env s)

/-- `manual_refresh(self, _)`: show the refreshing state, zero
`consecutive_failures`, and re-run the cycle. -/
def manual_refresh (env : FetchEnv) (parse : String → Option Int) (now : String)
    (s : MonState) : MonState × List Notification :=
  refresh env parse now
    { s with title := "⏳", status_title := "Status: Refreshing...", consecutive_failures := 0 }

/-- How one `get_token` call classifies, for the episode bookkeeping of
the auth notification: an immediate cached return, a successful
retrieval from the store, or exhaustion of all retries. -/
inductive GTOutcome where
  | cachedHit
  | success
  | exhausted
  deriving DecidableEq

/-- The classification of a `get_token` call from state `s` (same
conditions as `get_token` itself). -/
def gtOutcome (env : List (Option String)) (force_refresh : Bool) (s : MonState) : GTOutcome :=
  if tokenTruthy s.token && !force_refresh then .cachedHit
  else
    match (env.take MAX_RETRIES).findSome? tokenOk with
    | some _ => .success
    | none => .exhausted

/-- Run a sequence of `get_token` calls (each given its `force_refresh`
flag and keychain environment), recording for each call its outcome and
whether it sent a notification. -/
def runGT : List (List (Option String) × Bool) → MonState → List (GTOutcome × Bool)
  | [], _ => []
  | (env, force) :: rest, s =>
    let r := get_token env force s
    (gtOutcome env force s, !r.notifs.isEmpty) :: runGT rest r.state

/-- The specification-side flags for a call sequence: a notification is
expected exactly on an exhausting call with no earlier exhausting call
since the last successful retrieval (`seen` carries whether such an
exhausting call has been seen). -/
def episodeFlags : List GTOutcome → Bool → List Bool
  | [], _ => []
  | .success :: rest, _ => false :: episodeFlags rest false
  | .cachedHit :: rest, seen => false :: episodeFlags rest seen
  | .exhausted :: rest, seen => (!seen) :: episodeFlags rest true

/-- An HTTP result that the retry loop treats as retryable: a network
timeout, a connection error, another exception, or a 5xx response. -/
def Retryable : HttpResult → Prop
  | .timeout => True
  | .connError => True
  | .exc => True
  | .status code _ => 500 ≤ code ∧ code < 600

/-- The empty JSON object `{}` as a response body (falsy in Python). -/
def emptyDict : Usage := ⟨none, none, false⟩

/-- A truthy response body holding neither a `five_hour` nor a
`seven_day` key. -/
def bareUsage : Usage := ⟨none, none, true⟩

/-- A timestamp parser on which every string fails to parse. -/
def noParse : String → Option Int := fun _ => none

/-- A fetch environment whose three requests all time out (the initial
token comes from the state's cache). -/
def threeTimeouts : FetchEnv := ⟨[], [.timeout, .timeout, .timeout], []⟩

/-- How one `fetch_usage` call exits, for stating exactly when the
failure counter moves: a parsed 2xx body (`success`); all `MAX_RETRIES`
loop attempts spent (`exhausted`, the only exit that increments
`consecutive_failures`); no token at the start (`noToken`); a 401 whose
forced refresh fails (`refreshFailed`); or a non-retryable client error
(`clientError`). -/
inductive FetchOutcome where
  | success
  | exhausted
  | noToken
  | refreshFailed
  | clientError
  deriving DecidableEq

/-- Specification-side classifier of the attempt loop's exit, branch for
branch the same conditions as `fetch_attempts` (whose control flow
depends only on the remaining attempts, the response list and the
refresh environments, never on the monitor state). -/
def loopOutcome : Nat → List HttpResult → List (List (Option String)) → FetchOutcome
  | 0, _, _ => .exhausted
  | remaining + 1, http, refreshEnvs =>
    match http with
    | [] => loopOutcome remaining [] refreshEnvs
    | r :: rest =>
      match r with
      | .timeout => loopOutcome remaining rest refreshEnvs
      | .connError => loopOutcome remaining rest refreshEnvs
      | .exc => loopOutcome remaining rest refreshEnvs
      | .status code _ =>
        if code = 401 then
          if ((((refreshEnvs.headD []).take MAX_RETRIES).findSome? tokenOk)).isSome then
            loopOutcome remaining rest refreshEnvs.tail
          else .refreshFailed
        else if 400 ≤ code ∧ code < 600 then
          if 500 ≤ code then loopOutcome remaining rest refreshEnvs
          else .clientError
        else .success

/-- The classification of a whole `fetch_usage` call from state `s`. -/
def fetchOutcome (env : FetchEnv) (s : MonState) : FetchOutcome :=
  match (get_token env.tokenEnv false s).token? with
  | none => .noToken
  | some _ => loopOutcome MAX_RETRIES env.http env.refreshEnvs

/-! ### Lemmas about the threshold loop -/

theorem checkLevels_fst_subset (L : List (String × ℚ)) (pct : ℚ) (label : String)
    (fired : Finset String) : fired ⊆ (checkLevels L pct label fired).1 := by
  induction L generalizing fired with
  | nil => exact Finset.Subset.refl _
  | cons hd rest ih =>
    obtain ⟨level, threshold⟩ := hd
    simp only [checkLevels]
    split
    · exact (Finset.subset_insert _ _).trans (ih _)
    · exact ih _

theorem checkLevels_idem (L : List (String × ℚ)) (pct : ℚ) (label : String)
    (fired : Finset String) :
    checkLevels L pct label (checkLevels L pct label fired).1 =
      ((checkLevels L pct label fired).1, []) := by
  induction L generalizing fired with
  | nil => rfl
  | cons hd rest ih =>
    obtain ⟨level, threshold⟩ := hd
    by_cases h : threshold ≤ pct ∧ (label ++ "_" ++ level) ∉ fired
    · have hmem : (label ++ "_" ++ level) ∈
          (checkLevels rest pct label (insert (label ++ "_" ++ level) fired)).1 :=
        checkLevels_fst_subset _ _ _ _ (Finset.mem_insert_self _ _)
      simp only [checkLevels, if_pos h]
      rw [if_neg (by simp [hmem])]
      exact ih _
    · simp only [checkLevels, if_neg h]
      rcases Decidable.not_and_iff_or_not.mp h with h1 | h1
      · rw [if_neg (by exact fun hc => h1 hc.1)]
        exact ih _
      · have hmem : (label ++ "_" ++ level) ∈ (checkLevels rest pct label fired).1 :=
          checkLevels_fst_subset _ _ _ _ (Decidable.not_not.mp h1)
        rw [if_neg (by simp [hmem])]
        exact ih _

theorem checkLevels_below (pct : ℚ) (label : String) (fired : Finset String)
    (h : pct < warningThreshold) :
    checkLevels THRESHOLDS pct label fired = (fired, []) := by
  have h2 : ¬ dangerThreshold ≤ pct := by
    rw [warningThreshold] at h; rw [dangerThreshold]; intro hc; nlinarith
  have h3 : ¬ criticalThreshold ≤ pct := by
    rw [warningThreshold] at h; rw [criticalThreshold]; intro hc; nlinarith
  simp only [THRESHOLDS, checkLevels]
  rw [if_neg (fun hc => absurd hc.1 (not_le.mpr h)),
    if_neg (fun hc => absurd hc.1 h2), if_neg (fun hc => absurd hc.1 h3)]

theorem check_thresholds_below (pct : ℚ) (label : String) (fired : Finset String)
    (h : pct < warningThreshold) :
    check_thresholds pct label fired =
      (fired.filter (fun k => pyStartsWith k label = false), []) := by
  simp only [check_thresholds, checkLevels_below pct label fired h, if_pos h]

/-- Claim C5: calling `check_thresholds` twice in succession with the
same metric label and the same `pct`, with `pct` at or above the warning
threshold, fires each level at most once: the second call emits no
notification and leaves `notified_levels` unchanged. -/
theorem C5_second_check_noop (fired : Finset String) (pct : ℚ) (label : String)
    (h : warningThreshold ≤ pct) :
    check_thresholds pct label (check_thresholds pct label fired).1 =
      ((check_thresholds pct label fired).1, []) := by
  simp only [check_thresholds, if_neg (not_lt.mpr h)]
  exact checkLevels_idem _ _ _ _

/-- Witness for C5 at `pct = 0.75`, `label = "5h limit"`, empty FiredSet. -/
theorem C5_second_check_noop_witness :
    check_thresholds (75/100) "5h limit" (check_thresholds (75/100) "5h limit" ∅).1 =
      ((check_thresholds (75/100) "5h limit" ∅).1, []) :=
  C5_second_check_noop ∅ (75/100) "5h limit" (by decide)

/-- Claim C4: when `pct` is below the warning threshold, `check` removes
exactly the FiredSet entries whose key starts with the metric label
(first conjunct: the result is the filter of the old set, with no
notification). For the two labels the program passes ("5h limit" and
"Weekly limit", `refresh` lines 217–218), every entry of the cleared
label is removed and every entry of the other label is untouched
(second conjunct). Consequently raising `pct` above critical, dropping
below warning and raising above warning again re-fires exactly the
warning notification (third conjunct). -/
theorem C4_hysteresis_scoped :
    (∀ (fired : Finset String) (pct : ℚ) (label : String), pct < warningThreshold →
      check_thresholds pct label fired =
        (fired.filter (fun k => pyStartsWith k label = false), [])) ∧
    (∀ (fired : Finset String) (pct : ℚ) (label other : String), pct < warningThreshold →
      (label = "5h limit" ∧ other = "Weekly limit" ∨
        label = "Weekly limit" ∧ other = "5h limit") →
      ∀ lvl ∈ (["warning", "danger", "critical"] : List String),
        (label ++ "_" ++ lvl) ∉ (check_thresholds pct label fired).1 ∧
        ((other ++ "_" ++ lvl) ∈ (check_thresholds pct label fired).1 ↔
          (other ++ "_" ++ lvl) ∈ fired)) ∧
    ((check_thresholds (75/100) "5h limit"
        (check_thresholds (50/100) "5h limit"
          (check_thresholds (96/100) "5h limit" ∅).1).1).2 =
      [levelNotification "warning" "5h limit" (75/100)]) := by
  refine ⟨fun fired pct label h => check_thresholds_below pct label fired h, ?_, by decide⟩
  intro fired pct label other h hpair lvl hlvl
  rw [check_thresholds_below pct label fired h]
  rcases hpair with ⟨hl, ho⟩ | ⟨hl, ho⟩ <;> subst hl <;> subst ho <;>
    simp only [List.mem_cons, List.not_mem_nil, or_false] at hlvl <;>
    rcases hlvl with h1 | h1 | h1 <;> subst h1 <;>
    exact ⟨fun hc => absurd (Finset.mem_filter.mp hc).2 (by decide),
      Iff.trans Finset.mem_filter (and_iff_left (by decide))⟩

/-- Witness for C4 at `pct = 0.50`, `label = "5h limit"`, a FiredSet
holding one entry of each metric. -/
theorem C4_hysteresis_scoped_witness :
    check_thresholds (50/100) "5h limit"
        (insert "5h limit_warning" {"Weekly limit_danger"}) =
      ((insert "5h limit_warning" {"Weekly limit_danger"} : Finset String).filter
        (fun k => pyStartsWith k "5h limit" = false), []) :=
  C4_hysteresis_scoped.1 _ (50/100) "5h limit" (by decide)

/-- Claim C6, counterexample: the empty string is a string on which
parsing fails (`datetime.fromisoformat('')` raises), so the claim says
`format_reset` returns its first 16 characters, i.e. `""`; but
`if not iso_time:` is already true for `""`, so the code returns
`"unknown"`. -/
theorem C6_format_reset_counterexample :
    format_reset noParse (some "") = "unknown" ∧
    ¬ format_reset noParse (some "") = pyTake "" 16 := by decide

/-- Claim C6 as amended: a null, absent or empty timestamp yields
`"unknown"`; a non-empty unparseable string yields its first 16
characters; a parsed time with a negative truncated whole-second delta
yields `"soon"`; otherwise with `hours = t / 3600` whole hours and
`minutes = t % 3600 / 60` remaining minutes, `hours > 24` yields
`"in {hours/24}d"`, `0 < hours ≤ 24` yields `"in {hours}h {minutes}m"`,
and `hours = 0` yields `"in {minutes}m"`. -/
theorem C6_format_reset_amended :
    (∀ parse : String → Option Int, format_reset parse none = "unknown") ∧
    (∀ parse : String → Option Int, format_reset parse (some "") = "unknown") ∧
    (∀ (parse : String → Option Int) (s : String), s.isEmpty = false → parse s = none →
      format_reset parse (some s) = pyTake s 16) ∧
    (∀ (parse : String → Option Int) (s : String) (t : Int), s.isEmpty = false →
      parse s = some t → t < 0 → format_reset parse (some s) = "soon") ∧
    (∀ (parse : String → Option Int) (s : String) (t : Int), s.isEmpty = false →
      parse s = some t → 0 ≤ t → 24 < t / 3600 →
      format_reset parse (some s) = "in " ++ toString (t / 3600 / 24) ++ "d") ∧
    (∀ (parse : String → Option Int) (s : String) (t : Int), s.isEmpty = false →
      parse s = some t → 0 ≤ t → 0 < t / 3600 → t / 3600 ≤ 24 →
      format_reset parse (some s) = "in " ++ toString (t / 3600) ++ "h " ++
        toString (t % 3600 / 60) ++ "m") ∧
    (∀ (parse : String → Option Int) (s : String) (t : Int), s.isEmpty = false →
      parse s = some t → 0 ≤ t → t / 3600 = 0 →
      format_reset parse (some s) = "in " ++ toString (t % 3600 / 60) ++ "m") := by
  refine ⟨fun _ => rfl, fun _ => rfl, ?_, ?_, ?_, ?_, ?_⟩
  · intro parse s hs hp
    simp only [format_reset, hs, Bool.false_eq_true, if_false, hp]
  · intro parse s t hs hp ht
    simp only [format_reset, hs, Bool.false_eq_true, if_false, hp, if_pos ht]
  · intro parse s t hs hp ht0 hd
    simp only [format_reset, hs, Bool.false_eq_true, if_false, hp,
      if_neg (not_lt.mpr ht0), if_pos hd]
  · intro parse s t hs hp ht0 hpos hle
    simp only [format_reset, hs, Bool.false_eq_true, if_false, hp,
      if_neg (not_lt.mpr ht0), if_neg (not_lt.mpr hle), if_pos hpos]
  · intro parse s t hs hp ht0 hz
    simp only [format_reset, hs, Bool.false_eq_true, if_false, hp,
      if_neg (not_lt.mpr ht0)]
    rw [hz]
    norm_num

/-- Witness for the amended C6 at a 3700-second delta: one whole hour
and one remaining minute. -/
theorem C6_format_reset_amended_witness :
    format_reset (fun _ => some 3700) (some "x") = "in 1h 1m" := by
  have h := C6_format_reset_amended.2.2.2.2.2.1 (fun _ => some 3700) "x" 3700
    (by decide) rfl (by decide) (by decide) (by decide)
  exact h.trans (by decide)

/-! ### Lemmas about token acquisition -/

theorem get_token_cases (env : List (Option String)) (force : Bool) (s : MonState) :
    (gtOutcome env force s = .cachedHit ∧ get_token env force s = ⟨s.token, s, []⟩) ∨
    (∃ t, gtOutcome env force s = .success ∧ get_token env force s =
      ⟨some t, { s with token := some t, token_refresh_attempts := 0 }, []⟩) ∨
    (gtOutcome env force s = .exhausted ∧
      ((s.token_refresh_attempts = 0 ∧ get_token env force s =
        ⟨none, { s with token_refresh_attempts := s.token_refresh_attempts + 1 },
          [authNotification]⟩) ∨
       (s.token_refresh_attempts ≠ 0 ∧ get_token env force s = ⟨none, s, []⟩))) := by
  by_cases hc : (tokenTruthy s.token && !force) = true
  · exact Or.inl ⟨by rw [gtOutcome, if_pos hc], by rw [get_token, if_pos hc]⟩
  · cases hfind : (env.take MAX_RETRIES).findSome? tokenOk with
    | some t =>
      refine Or.inr (Or.inl ⟨t, ?_, ?_⟩)
      · rw [gtOutcome, if_neg hc, hfind]
      · rw [get_token, if_neg hc, hfind]
    | none =>
      refine Or.inr (Or.inr ⟨by rw [gtOutcome, if_neg hc, hfind], ?_⟩)
      by_cases ha : s.token_refresh_attempts = 0
      · exact Or.inl ⟨ha, by rw [get_token, if_neg hc, hfind, if_pos ha]⟩
      · exact Or.inr ⟨ha, by rw [get_token, if_neg hc, hfind, if_neg ha]⟩

/-- Claim C3: along any sequence of `get_token` calls, a notification is
sent exactly on a call that exhausts all retries while no earlier call
since the last successful retrieval has exhausted its retries — one
`"Authentication Required"` notification per auth-failure episode, the
episode ending when a retrieval succeeds (first conjunct, stated as a
per-call equality with the specification-side `episodeFlags`, seeded
with whether the attempt counter is already non-zero); and a successful
retrieval resets `token_refresh_attempts` to 0 (second conjunct). -/
theorem C3_auth_notification_episode :
    (∀ (calls : List (List (Option String) × Bool)) (s : MonState),
      (runGT calls s).map Prod.snd =
        episodeFlags ((runGT calls s).map Prod.fst) (s.token_refresh_attempts != 0)) ∧
    (∀ (env : List (Option String)) (force : Bool) (s : MonState),
      gtOutcome env force s = GTOutcome.success →
      (get_token env force s).state.token_refresh_attempts = 0) := by
  constructor
  · intro calls
    induction calls with
    | nil => intro s; rfl
    | cons c rest ih =>
      intro s
      obtain ⟨env, force⟩ := c
      rcases get_token_cases env force s with ⟨ho, hr⟩ | ⟨t, ho, hr⟩ |
        ⟨ho, ⟨ha, hr⟩ | ⟨ha, hr⟩⟩ <;>
        simp only [runGT, List.map_cons, ho, hr, episodeFlags, List.isEmpty_nil,
          List.isEmpty_cons, Bool.not_true, Bool.not_false]
      · exact congrArg (List.cons false) (ih s)
      · have h2 := ih { s with token := some t, token_refresh_attempts := 0 }
        simpa using h2
      · have h2 := ih { s with token_refresh_attempts := s.token_refresh_attempts + 1 }
        simp only [ha] at h2 ⊢
        simpa using h2
      · have h2 := ih s
        have hb : (s.token_refresh_attempts != 0) = true := bne_iff_ne.mpr ha
        rw [hb] at h2
        rw [hb]
        simp only [Bool.not_true]
        exact congrArg (List.cons false) h2
  · intro env force s hsucc
    rcases get_token_cases env force s with ⟨ho, _⟩ | ⟨t, _, hr⟩ | ⟨ho, _⟩
    · rw [ho] at hsucc; cases hsucc
    · rw [hr]
    · rw [ho] at hsucc; cases hsucc

/-- Witness for C3: a failing call from a fresh state notifies; the
success conjunct applied at a one-entry environment. -/
theorem C3_auth_notification_episode_witness :
    (runGT [([none, none, none], false), ([none, none, none], false),
        ([some "tok"], false), ([], true)] initState).map Prod.snd =
      episodeFlags ((runGT [([none, none, none], false), ([none, none, none], false),
        ([some "tok"], false), ([], true)] initState).map Prod.fst)
        (initState.token_refresh_attempts != 0) ∧
    (get_token [some "tok"] false initState).state.token_refresh_attempts = 0 :=
  ⟨C3_auth_notification_episode.1 _ initState,
    C3_auth_notification_episode.2 [some "tok"] false initState (by decide)⟩

/-! ### Step lemmas for the fetch retry loop -/

theorem fetch_attempts_retryable_step (remaining : Nat) (r : HttpResult) (hr : Retryable r)
    (rest : List HttpResult) (refreshEnvs : List (List (Option String))) (token : String)
    (s : MonState) (notifs : List Notification) (slept : Nat) :
    fetch_attempts (remaining + 1) (r :: rest) refreshEnvs token s notifs slept =
      fetch_attempts remaining rest refreshEnvs token s notifs
        (slept + if 1 ≤ remaining then RETRY_DELAY else 0) := by
  cases r with
  | timeout => rfl
  | connError => rfl
  | exc => rfl
  | status code body =>
    obtain ⟨h5, h6⟩ := hr
    simp only [fetch_attempts]
    rw [if_neg (by omega), if_pos ⟨by omega, h6⟩, if_pos h5]

theorem fetch_attempts_401_success (remaining : Nat) (e : Usage) (rest : List HttpResult)
    (refreshEnvs : List (List (Option String))) (token : String) (s : MonState)
    (notifs : List Notification) (slept : Nat) (t2 : String)
    (hre : (((refreshEnvs.headD []).take MAX_RETRIES).findSome? tokenOk) = some t2) :
    fetch_attempts (remaining + 1) (.status 401 e :: rest) refreshEnvs token s notifs slept =
      fetch_attempts remaining rest refreshEnvs.tail t2
        { s with token := some t2, token_refresh_attempts := 0 } notifs slept := by
  have hgt : get_token (refreshEnvs.headD []) true { s with token := none } =
      ⟨some t2, { s with token := some t2, token_refresh_attempts := 0 }, []⟩ := by
    rw [get_token, if_neg (by simp [tokenTruthy]), hre]
  simp only [fetch_attempts, if_pos rfl, hgt, List.append_nil, if_true]

theorem fetch_attempts_client_error (remaining : Nat) (code : Nat) (body : Usage)
    (rest : List HttpResult) (refreshEnvs : List (List (Option String))) (token : String)
    (s : MonState) (notifs : List Notification) (slept : Nat)
    (h4 : 400 ≤ code) (h5 : code < 500) (h401 : code ≠ 401) :
    fetch_attempts (remaining + 1) (.status code body :: rest) refreshEnvs token s notifs slept =
      ⟨none, s, notifs, slept⟩ := by
  simp only [fetch_attempts]
  rw [if_neg h401, if_pos ⟨h4, by omega⟩, if_neg (by omega)]

theorem fetch_attempts_ok (remaining : Nat) (code : Nat) (body : Usage)
    (rest : List HttpResult) (refreshEnvs : List (List (Option String))) (token : String)
    (s : MonState) (notifs : List Notification) (slept : Nat) (h : code < 400) :
    fetch_attempts (remaining + 1) (.status code body :: rest) refreshEnvs token s notifs slept =
      ⟨some body, { s with last_known_usage := some body, consecutive_failures := 0 },
        notifs, slept⟩ := by
  simp only [fetch_attempts]
  rw [if_neg (by omega), if_neg (by omega)]

theorem fetch_usage_cached_token (env : FetchEnv) (s : MonState) (t : String)
    (ht : s.token = some t) (hne : t.isEmpty = false) :
    fetch_usage env s = fetch_attempts MAX_RETRIES env.http env.refreshEnvs t s [] 0 := by
  have hgt : get_token env.tokenEnv false s = ⟨s.token, s, []⟩ := by
    rw [get_token, if_pos (by rw [ht]; simp [tokenTruthy, hne])]
  simp only [fetch_usage, hgt, ht]

theorem get_token_notifs_sub (env : List (Option String)) (force : Bool) (s : MonState) :
    ∀ n ∈ (get_token env force s).notifs, n = authNotification := by
  rcases get_token_cases env force s with ⟨_, hr⟩ | ⟨t, _, hr⟩ | ⟨_, ⟨_, hr⟩ | ⟨_, hr⟩⟩ <;>
    rw [hr] <;> intro n hn <;> simp at hn
  exact hn

theorem get_token_notified_levels (env : List (Option String)) (force : Bool) (s : MonState) :
    (get_token env force s).state.notified_levels = s.notified_levels := by
  rcases get_token_cases env force s with ⟨_, hr⟩ | ⟨t, _, hr⟩ | ⟨_, ⟨_, hr⟩ | ⟨_, hr⟩⟩ <;>
    rw [hr]

theorem fetch_attempts_success_cf (remaining : Nat) (http : List HttpResult)
    (refreshEnvs : List (List (Option String))) (token : String) (s : MonState)
    (notifs : List Notification) (slept : Nat) (u : Usage)
    (h : (fetch_attempts remaining http refreshEnvs token s notifs slept).usage? = some u) :
    (fetch_attempts remaining http refreshEnvs token s notifs slept).state.consecutive_failures
      = 0 := by
  induction remaining generalizing http refreshEnvs token s notifs slept with
  | zero => exact absurd h (by simp [fetch_attempts])
  | succ n ih =>
    cases http with
    | nil =>
      simp only [fetch_attempts] at h ⊢
      exact ih _ _ _ _ _ _ h
    | cons r rest =>
      cases r with
      | timeout =>
        simp only [fetch_attempts] at h ⊢
        exact ih _ _ _ _ _ _ h
      | connError =>
        simp only [fetch_attempts] at h ⊢
        exact ih _ _ _ _ _ _ h
      | exc =>
        simp only [fetch_attempts] at h ⊢
        exact ih _ _ _ _ _ _ h
      | status code body =>
        simp only [fetch_attempts] at h ⊢
        by_cases h401 : code = 401
        · rw [if_pos h401] at h ⊢
          cases hgt : (get_token (refreshEnvs.headD []) true { s with token := none }).token? with
          | none =>
            rw [hgt] at h
            exact absurd h (by simp)
          | some t2 =>
            rw [hgt] at h
            exact ih _ _ _ _ _ _ h
        · rw [if_neg h401] at h ⊢
          by_cases hce : 400 ≤ code ∧ code < 600
          · rw [if_pos hce] at h ⊢
            by_cases h5 : 500 ≤ code
            · rw [if_pos h5] at h ⊢
              exact ih _ _ _ _ _ _ h
            · rw [if_neg h5] at h
              exact absurd h (by simp)
          · rw [if_neg hce]

theorem fetch_attempts_notifs_sub (remaining : Nat) (http : List HttpResult)
    (refreshEnvs : List (List (Option String))) (token : String) (s : MonState)
    (notifs : List Notification) (slept : Nat) :
    ∀ n ∈ (fetch_attempts remaining http refreshEnvs token s notifs slept).notifs,
      n ∈ notifs ∨ n = authNotification := by
  induction remaining generalizing http refreshEnvs token s notifs slept with
  | zero =>
    intro n hn
    simp only [fetch_attempts] at hn
    exact Or.inl hn
  | succ k ih =>
    cases http with
    | nil =>
      simp only [fetch_attempts]
      exact ih _ _ _ _ _ _
    | cons r rest =>
      cases r with
      | timeout => simp only [fetch_attempts]; exact ih _ _ _ _ _ _
      | connError => simp only [fetch_attempts]; exact ih _ _ _ _ _ _
      | exc => simp only [fetch_attempts]; exact ih _ _ _ _ _ _
      | status code body =>
        simp only [fetch_attempts]
        by_cases h401 : code = 401
        · rw [if_pos h401]
          cases hgt : (get_token (refreshEnvs.headD []) true { s with token := none }).token? with
          | none =>
            intro n hn
            have hn2 : n ∈ notifs ++
                (get_token (refreshEnvs.headD []) true { s with token := none }).notifs := hn
            rcases List.mem_append.mp hn2 with h3 | h3
            · exact Or.inl h3
            · exact Or.inr (get_token_notifs_sub _ _ _ n h3)
          | some t2 =>
            intro n hn
            have hn2 : n ∈ (fetch_attempts k rest refreshEnvs.tail t2
                (get_token (refreshEnvs.headD []) true { s with token := none }).state
                (notifs ++
                  (get_token (refreshEnvs.headD []) true { s with token := none }).notifs)
                slept).notifs := hn
            rcases ih _ _ _ _ _ _ n hn2 with hn3 | hn3
            · rcases List.mem_append.mp hn3 with h3 | h3
              · exact Or.inl h3
              · exact Or.inr (get_token_notifs_sub _ _ _ n h3)
            · exact Or.inr hn3
        · rw [if_neg h401]
          by_cases hce : 400 ≤ code ∧ code < 600
          · rw [if_pos hce]
            by_cases h5 : 500 ≤ code
            · rw [if_pos h5]; exact ih _ _ _ _ _ _
            · rw [if_neg h5]; intro n hn; exact Or.inl hn
          · rw [if_neg hce]; intro n hn; exact Or.inl hn

theorem fetch_attempts_notified_levels (remaining : Nat) (http : List HttpResult)
    (refreshEnvs : List (List (Option String))) (token : String) (s : MonState)
    (notifs : List Notification) (slept : Nat) :
    (fetch_attempts remaining http refreshEnvs token s notifs slept).state.notified_levels =
      s.notified_levels := by
  induction remaining generalizing http refreshEnvs token s notifs slept with
  | zero => simp only [fetch_attempts]
  | succ k ih =>
    cases http with
    | nil => simp only [fetch_attempts]; exact ih _ _ _ _ _ _
    | cons r rest =>
      cases r with
      | timeout => simp only [fetch_attempts]; exact ih _ _ _ _ _ _
      | connError => simp only [fetch_attempts]; exact ih _ _ _ _ _ _
      | exc => simp only [fetch_attempts]; exact ih _ _ _ _ _ _
      | status code body =>
        simp only [fetch_attempts]
        by_cases h401 : code = 401
        · rw [if_pos h401]
          cases hgt : (get_token (refreshEnvs.headD []) true { s with token := none }).token? with
          | none =>
            exact get_token_notified_levels _ _ _
          | some t2 =>
            exact Eq.trans (ih _ _ _ _ _ _) (get_token_notified_levels _ _ _)
        · rw [if_neg h401]
          by_cases hce : 400 ≤ code ∧ code < 600
          · rw [if_pos hce]
            by_cases h5 : 500 ≤ code
            · rw [if_pos h5]; exact ih _ _ _ _ _ _
            · rw [if_neg h5]
          · rw [if_neg hce]

theorem fetch_usage_success_cf (env : FetchEnv) (s : MonState) (u : Usage)
    (h : (fetch_usage env s).usage? = some u) :
    (fetch_usage env s).state.consecutive_failures = 0 := by
  revert h
  simp only [fetch_usage]
  cases hgt : (get_token env.tokenEnv false s).token? with
  | none => intro h; exact absurd h (by simp)
  | some t => exact fetch_attempts_success_cf _ _ _ _ _ _ _ _

theorem fetch_usage_notifs_sub (env : FetchEnv) (s : MonState) :
    ∀ n ∈ (fetch_usage env s).notifs, n = authNotification := by
  simp only [fetch_usage]
  cases hgt : (get_token env.tokenEnv false s).token? with
  | none => exact get_token_notifs_sub _ _ _
  | some t =>
    intro n hn
    rcases fetch_attempts_notifs_sub _ _ _ _ _ _ _ n hn with h2 | h2
    · exact get_token_notifs_sub _ _ _ n h2
    · exact h2

theorem fetch_usage_notified_levels (env : FetchEnv) (s : MonState) :
    (fetch_usage env s).state.notified_levels = s.notified_levels := by
  simp only [fetch_usage]
  cases hgt : (get_token env.tokenEnv false s).token? with
  | none => exact get_token_notified_levels _ _ _
  | some t =>
    rw [fetch_attempts_notified_levels _ _ _ _ _ _ _]
    exact get_token_notified_levels _ _ _

theorem get_token_cf (env : List (Option String)) (force : Bool) (s : MonState) :
    (get_token env force s).state.consecutive_failures = s.consecutive_failures := by
  rcases get_token_cases env force s with ⟨_, hr⟩ | ⟨t, _, hr⟩ | ⟨_, ⟨_, hr⟩ | ⟨_, hr⟩⟩ <;>
    rw [hr]

theorem get_token_force_token (env : List (Option String)) (s : MonState) :
    (get_token env true s).token? = (env.take MAX_RETRIES).findSome? tokenOk := by
  rw [get_token, if_neg (by simp)]
  cases (env.take MAX_RETRIES).findSome? tokenOk with
  | some t => rfl
  | none => split_ifs <;> rfl

theorem fetch_attempts_401_fail (remaining : Nat) (e : Usage) (rest : List HttpResult)
    (refreshEnvs : List (List (Option String))) (token : String) (s : MonState)
    (notifs : List Notification) (slept : Nat)
    (hre : (((refreshEnvs.headD []).take MAX_RETRIES).findSome? tokenOk) = none) :
    fetch_attempts (remaining + 1) (.status 401 e :: rest) refreshEnvs token s notifs slept =
      ⟨none, (get_token (refreshEnvs.headD []) true { s with token := none }).state,
        notifs ++ (get_token (refreshEnvs.headD []) true { s with token := none }).notifs,
        slept⟩ := by
  have htok : (get_token (refreshEnvs.headD []) true { s with token := none }).token? = none := by
    rw [get_token_force_token, hre]
  simp only [fetch_attempts, if_pos rfl, htok, if_true]

theorem fetch_attempts_outcome (remaining : Nat) (http : List HttpResult)
    (refreshEnvs : List (List (Option String))) (token : String) (s : MonState)
    (notifs : List Notification) (slept : Nat) :
    (loopOutcome remaining http refreshEnvs = .exhausted →
      (fetch_attempts remaining http refreshEnvs token s notifs slept).usage? = none ∧
      (fetch_attempts remaining http refreshEnvs token s notifs
          slept).state.consecutive_failures = s.consecutive_failures + 1) ∧
    (loopOutcome remaining http refreshEnvs = .success →
      (∃ u, (fetch_attempts remaining http refreshEnvs token s notifs slept).usage? = some u) ∧
      (fetch_attempts remaining http refreshEnvs token s notifs
          slept).state.consecutive_failures = 0) ∧
    (loopOutcome remaining http refreshEnvs = .refreshFailed ∨
        loopOutcome remaining http refreshEnvs = .clientError →
      (fetch_attempts remaining http refreshEnvs token s notifs slept).usage? = none ∧
      (fetch_attempts remaining http refreshEnvs token s notifs
          slept).state.consecutive_failures = s.consecutive_failures) := by
  induction remaining generalizing http refreshEnvs token s notifs slept with
  | zero =>
    refine ⟨fun _ => ⟨rfl, rfl⟩, fun h => ?_, fun h => ?_⟩
    · rw [show loopOutcome 0 http refreshEnvs = .exhausted from rfl] at h
      exact absurd h (by decide)
    · rw [show loopOutcome 0 http refreshEnvs = .exhausted from rfl] at h
      exact absurd h (by decide)
  | succ k ih =>
    cases http with
    | nil =>
      simp only [loopOutcome, fetch_attempts]
      exact ih _ _ _ _ _ _
    | cons r rest =>
      cases r with
      | timeout =>
        simp only [loopOutcome, fetch_attempts]
        exact ih _ _ _ _ _ _
      | connError =>
        simp only [loopOutcome, fetch_attempts]
        exact ih _ _ _ _ _ _
      | exc =>
        simp only [loopOutcome, fetch_attempts]
        exact ih _ _ _ _ _ _
      | status code body =>
        by_cases h401 : code = 401
        · subst h401
          cases hfind : (((refreshEnvs.headD []).take MAX_RETRIES).findSome? tokenOk) with
          | some t2 =>
            have hl : loopOutcome (k + 1) (.status 401 body :: rest) refreshEnvs =
                loopOutcome k rest refreshEnvs.tail := by
              simp only [loopOutcome, if_pos rfl, hfind, Option.isSome_some, if_true]
            rw [hl, fetch_attempts_401_success k body rest refreshEnvs token s notifs slept
              t2 hfind]
            exact ih _ _ _ _ _ _
          | none =>
            have hl : loopOutcome (k + 1) (.status 401 body :: rest) refreshEnvs =
                .refreshFailed := by
              simp only [loopOutcome, if_pos rfl, hfind, Option.isSome_none]
              rfl
            rw [hl, fetch_attempts_401_fail k body rest refreshEnvs token s notifs slept hfind]
            refine ⟨fun h => absurd h (by decide), fun h => absurd h (by decide),
              fun _ => ⟨rfl, ?_⟩⟩
            exact get_token_cf _ _ _
        · by_cases hce : 400 ≤ code ∧ code < 600
          · by_cases h5 : 500 ≤ code
            · have hl : loopOutcome (k + 1) (.status code body :: rest) refreshEnvs =
                  loopOutcome k rest refreshEnvs := by
                simp only [loopOutcome]
                rw [if_neg h401, if_pos hce, if_pos h5]
              rw [hl, fetch_attempts_retryable_step k (.status code body) ⟨h5, hce.2⟩]
              exact ih _ _ _ _ _ _
            · have hl : loopOutcome (k + 1) (.status code body :: rest) refreshEnvs =
                  .clientError := by
                simp only [loopOutcome]
                rw [if_neg h401, if_pos hce, if_neg h5]
              rw [hl, fetch_attempts_client_error k code body rest refreshEnvs token s notifs
                slept hce.1 (by omega) h401]
              exact ⟨fun h => absurd h (by decide), fun h => absurd h (by decide),
                fun _ => ⟨rfl, rfl⟩⟩
          · have hl : loopOutcome (k + 1) (.status code body :: rest) refreshEnvs =
                .success := by
              simp only [loopOutcome]
              rw [if_neg h401, if_neg hce]
            have hf : fetch_attempts (k + 1) (.status code body :: rest) refreshEnvs token s
                notifs slept =
                ⟨some body,
                  { s with last_known_usage := some body, consecutive_failures := 0 },
                  notifs, slept⟩ := by
              simp only [fetch_attempts]
              rw [if_neg h401, if_neg hce]
            rw [hl, hf]
            exact ⟨fun h => absurd h (by decide), fun _ => ⟨⟨body, rfl⟩, rfl⟩,
              fun h => absurd h (by decide)⟩

theorem loopOutcome_ne_noToken (remaining : Nat) (http : List HttpResult)
    (refreshEnvs : List (List (Option String))) :
    loopOutcome remaining http refreshEnvs ≠ .noToken := by
  induction remaining generalizing http refreshEnvs with
  | zero =>
    intro h
    rw [show loopOutcome 0 http refreshEnvs = .exhausted from rfl] at h
    exact absurd h (by decide)
  | succ k ih =>
    cases http with
    | nil => simpa only [loopOutcome] using ih [] refreshEnvs
    | cons r rest =>
      cases r with
      | timeout => simpa only [loopOutcome] using ih rest refreshEnvs
      | connError => simpa only [loopOutcome] using ih rest refreshEnvs
      | exc => simpa only [loopOutcome] using ih rest refreshEnvs
      | status code body =>
        simp only [loopOutcome]
        by_cases h401 : code = 401
        · rw [if_pos h401]
          by_cases hfind : ((((refreshEnvs.headD []).take MAX_RETRIES).findSome? tokenOk)).isSome
          · rw [if_pos hfind]
            exact ih rest refreshEnvs.tail
          · rw [if_neg hfind]
            decide
        · rw [if_neg h401]
          by_cases hce : 400 ≤ code ∧ code < 600
          · rw [if_pos hce]
            by_cases h5 : 500 ≤ code
            · rw [if_pos h5]
              exact ih rest refreshEnvs
            · rw [if_neg h5]
              decide
          · rw [if_neg hce]
            decide

/-- Claim C7, counterexample: a `fetch_usage` call with no cached token
and all keychain reads failing returns `None` (line 126 of the source)
without touching `consecutive_failures` — so the counter is not
incremented on every null-returning call. -/
theorem C7_failure_counter_counterexample :
    (fetch_usage ⟨[none, none, none], [], []⟩ initState).usage? = none ∧
    (fetch_usage ⟨[none, none, none], [], []⟩ initState).state.consecutive_failures =
      initState.consecutive_failures := by decide

/-- Claim C7 as amended: classifying every `fetch_usage` call by its
exit (`fetchOutcome`), `consecutive_failures` is incremented exactly by
the calls that exhaust all `MAX_RETRIES` loop attempts without success,
and every such call returns `None`; a call whose response is parsed
resets the counter to 0 (both by outcome and for every call that
returns a snapshot); a call that returns `None` through any
non-exhausting path — missing token, failed 401-triggered refresh, or
non-retryable client error — leaves the counter unchanged; and
`manual_refresh` sets the counter to 0 before re-running the cycle. -/
theorem C7_failure_counter_amended :
    (∀ (env : FetchEnv) (s : MonState),
      (fetchOutcome env s = .exhausted →
        (fetch_usage env s).usage? = none ∧
        (fetch_usage env s).state.consecutive_failures = s.consecutive_failures + 1) ∧
      (fetchOutcome env s = .success →
        (∃ u, (fetch_usage env s).usage? = some u) ∧
        (fetch_usage env s).state.consecutive_failures = 0) ∧
      ((fetchOutcome env s = .noToken ∨ fetchOutcome env s = .refreshFailed ∨
          fetchOutcome env s = .clientError) →
        (fetch_usage env s).usage? = none ∧
        (fetch_usage env s).state.consecutive_failures = s.consecutive_failures)) ∧
    (∀ (env : FetchEnv) (s : MonState) (u : Usage),
      (fetch_usage env s).usage? = some u →
      (fetch_usage env s).state.consecutive_failures = 0) ∧
    (∀ (env : FetchEnv) (parse : String → Option Int) (now : String) (s : MonState),
      manual_refresh env parse now s = refresh env parse now
        { s with
            title := "⏳"
            status_title := "Status: Refreshing..."
            consecutive_failures := 0 }) := by
  refine ⟨?_, fetch_usage_success_cf, fun _ _ _ _ => rfl⟩
  intro env s
  cases hgt : (get_token env.tokenEnv false s).token? with
  | none =>
    have ho : fetchOutcome env s = .noToken := by rw [fetchOutcome, hgt]
    have hf : fetch_usage env s =
        ⟨none, (get_token env.tokenEnv false s).state,
          (get_token env.tokenEnv false s).notifs, 0⟩ := by
      simp only [fetch_usage, hgt]
    rw [ho, hf]
    exact ⟨fun h => absurd h (by decide), fun h => absurd h (by decide),
      fun _ => ⟨rfl, get_token_cf _ _ _⟩⟩
  | some t =>
    have ho : fetchOutcome env s = loopOutcome MAX_RETRIES env.http env.refreshEnvs := by
      rw [fetchOutcome, hgt]
    have hf : fetch_usage env s = fetch_attempts MAX_RETRIES env.http env.refreshEnvs t
        (get_token env.tokenEnv false s).state (get_token env.tokenEnv false s).notifs 0 := by
      simp only [fetch_usage, hgt]
    rw [ho, hf]
    have h3 := fetch_attempts_outcome MAX_RETRIES env.http env.refreshEnvs t
      (get_token env.tokenEnv false s).state (get_token env.tokenEnv false s).notifs 0
    rw [get_token_cf env.tokenEnv false s] at h3
    refine ⟨h3.1, h3.2.1, fun h => h3.2.2 ?_⟩
    rcases h with h | h
    · exact absurd h (loopOutcome_ne_noToken _ _ _)
    · exact h

/-- Witness for the amended C7: three timeouts exhaust the loop and
raise the counter from 2 to 3; a 401 whose forced refresh finds no
keychain entry returns `None` with the counter untouched; a
missing-token call at `consecutive_failures = 7` likewise leaves it at
7. -/
theorem C7_failure_counter_amended_witness :
    ((fetch_usage threeTimeouts { initState with token := some "t", consecutive_failures := 2
        }).usage? = none ∧
      (fetch_usage threeTimeouts { initState with token := some "t", consecutive_failures := 2
        }).state.consecutive_failures =
        { initState with token := some "t", consecutive_failures := 2
          }.consecutive_failures + 1) ∧
    ((fetch_usage ⟨[], [.status 401 emptyDict], [[]]⟩
        { initState with token := some "t", consecutive_failures := 2 }).usage? = none ∧
      (fetch_usage ⟨[], [.status 401 emptyDict], [[]]⟩
        { initState with token := some "t", consecutive_failures := 2
          }).state.consecutive_failures =
        { initState with token := some "t", consecutive_failures := 2
          }.consecutive_failures) ∧
    ((fetch_usage ⟨[none, none, none], [], []⟩
        { initState with consecutive_failures := 7 }).usage? = none ∧
      (fetch_usage ⟨[none, none, none], [], []⟩
        { initState with consecutive_failures := 7 }).state.consecutive_failures =
        { initState with consecutive_failures := 7 }.consecutive_failures) :=
  ⟨(C7_failure_counter_amended.1 threeTimeouts
      { initState with token := some "t", consecutive_failures := 2 }).1 (by decide),
    (C7_failure_counter_amended.1 ⟨[], [.status 401 emptyDict], [[]]⟩
      { initState with token := some "t", consecutive_failures := 2 }).2.2
      (Or.inr (Or.inl (by decide))),
    (C7_failure_counter_amended.1 ⟨[none, none, none], [], []⟩
      { initState with consecutive_failures := 7 }).2.2 (Or.inl (by decide))⟩

/-- Claim C2, counterexample: Python's `continue` advances the loop
variable of `for attempt in range(MAX_RETRIES)`, so the 401 iteration
does consume one of the three attempts. Here the refresh succeeds and a
200 response is available on the fourth request — which the loop would
reach if the 401 did not consume an attempt — yet the fetch returns
`None` after 401, timeout, timeout and increments the failure
counter. -/
theorem C2_401_no_retry_slot_counterexample :
    (fetch_usage ⟨[], [.status 401 emptyDict, .timeout, .timeout, .status 200 bareUsage],
        [[some "t2"]]⟩ { initState with token := some "t" }).usage? = none ∧
    (fetch_usage ⟨[], [.status 401 emptyDict, .timeout, .timeout, .status 200 bareUsage],
        [[some "t2"]]⟩ { initState with token := some "t" }).state.consecutive_failures = 1 := by
  decide

/-- Claim C2 as amended: a fetch whose first response is 401 and whose
retried call returns 200, with a successful forced token refresh in
between, returns the successful snapshot without exhausting the outer
retry budget and without sleeping (the `continue` skips the
`RETRY_DELAY`); the 401-triggered refresh does, however, consume one of
the `MAX_RETRIES` loop attempts, so only one further attempt remains
after the retried call (second conjunct: two retryable failures after
the 401 exhaust the loop). -/
theorem C2_401_then_success_amended :
    (∀ (s : MonState) (t t2 : String) (e body : Usage) (re : List (Option String))
       (rest : List HttpResult) (envs : List (List (Option String)))
       (te : List (Option String)),
      s.token = some t → t.isEmpty = false →
      (re.take MAX_RETRIES).findSome? tokenOk = some t2 →
      fetch_usage ⟨te, .status 401 e :: .status 200 body :: rest, re :: envs⟩ s =
        ⟨some body,
          { s with
              token := some t2
              token_refresh_attempts := 0
              last_known_usage := some body
              consecutive_failures := 0 },
          [], 0⟩) ∧
    (∀ (s : MonState) (t t2 : String) (e : Usage) (r2 r3 : HttpResult)
       (rest : List HttpResult) (re : List (Option String))
       (envs : List (List (Option String))) (te : List (Option String)),
      s.token = some t → t.isEmpty = false →
      (re.take MAX_RETRIES).findSome? tokenOk = some t2 →
      Retryable r2 → Retryable r3 →
      (fetch_usage ⟨te, .status 401 e :: r2 :: r3 :: rest, re :: envs⟩ s).usage? = none ∧
      (fetch_usage ⟨te, .status 401 e :: r2 :: r3 :: rest, re :: envs⟩
          s).state.consecutive_failures = s.consecutive_failures + 1) := by
  constructor
  · intro s t t2 e body re rest envs te ht hne hre
    rw [fetch_usage_cached_token _ s t ht hne,
      show MAX_RETRIES = 2 + 1 from rfl,
      fetch_attempts_401_success 2 e _ _ t s [] 0 t2 (by exact hre),
      fetch_attempts_ok 1 200 body rest _ t2 _ [] 0 (by omega)]
  · intro s t t2 e r2 r3 rest re envs te ht hne hre hr2 hr3
    have hsteps : fetch_usage ⟨te, .status 401 e :: r2 :: r3 :: rest, re :: envs⟩ s =
        fetch_attempts 0 rest envs t2
          { s with token := some t2, token_refresh_attempts := 0 } []
          (0 + RETRY_DELAY + 0) := by
      rw [fetch_usage_cached_token _ s t ht hne,
        show MAX_RETRIES = 2 + 1 from rfl,
        fetch_attempts_401_success 2 e _ _ t s [] 0 t2 (by exact hre),
        fetch_attempts_retryable_step 1 r2 hr2,
        fetch_attempts_retryable_step 0 r3 hr3]
      norm_num
    rw [hsteps]
    exact ⟨rfl, rfl⟩

/-- Witness for the amended C2: a 401 answered by a refreshed token and
a 200 on the next attempt yields the snapshot with no sleep; a 401
followed by two timeouts exhausts the loop. -/
theorem C2_401_then_success_amended_witness :
    fetch_usage ⟨[], [.status 401 emptyDict, .status 200 bareUsage], [[some "t2"]]⟩
        { initState with token := some "t" } =
      ⟨some bareUsage,
        { { initState with token := some "t" } with
            token := some "t2"
            token_refresh_attempts := 0
            last_known_usage := some bareUsage
            consecutive_failures := 0 },
        [], 0⟩ ∧
    (fetch_usage ⟨[], [.status 401 emptyDict, .timeout, .timeout], [[some "t2"]]⟩
        { initState with token := some "t" }).usage? = none :=
  ⟨C2_401_then_success_amended.1 _ "t" "t2" emptyDict bareUsage [some "t2"] [] [] []
      rfl (by decide) (by decide),
    (C2_401_then_success_amended.2 _ "t" "t2" emptyDict .timeout .timeout [] [some "t2"] [] []
      rfl (by decide) (by decide) trivial trivial).1⟩

/-- Claim C8: inside the `fetch_usage` attempt loop, a 4xx status other
than 401 returns `None` immediately — the result does not depend on any
later response and the state is untouched (first conjunct); a 5xx
status is retryable — the loop sleeps `RETRY_DELAY` and moves on to the
next attempt (second conjunct); three 5xx responses exhaust the
`MAX_RETRIES` attempts (third conjunct), while a success on the third
attempt after two 5xx responses is still returned (fourth conjunct). -/
theorem C8_client_server_errors :
    (∀ (s : MonState) (t : String) (code : Nat) (body : Usage) (rest : List HttpResult)
       (envs : List (List (Option String))) (te : List (Option String)),
      s.token = some t → t.isEmpty = false → 400 ≤ code → code < 500 → code ≠ 401 →
      fetch_usage ⟨te, .status code body :: rest, envs⟩ s = ⟨none, s, [], 0⟩) ∧
    (∀ (s : MonState) (t : String) (code : Nat) (body : Usage) (rest : List HttpResult)
       (envs : List (List (Option String))) (te : List (Option String)),
      s.token = some t → t.isEmpty = false → 500 ≤ code → code < 600 →
      fetch_usage ⟨te, .status code body :: rest, envs⟩ s =
        fetch_attempts (MAX_RETRIES - 1) rest envs t s [] RETRY_DELAY) ∧
    (∀ (s : MonState) (t : String) (c1 c2 c3 : Nat) (b1 b2 b3 : Usage)
       (rest : List HttpResult) (envs : List (List (Option String)))
       (te : List (Option String)),
      s.token = some t → t.isEmpty = false →
      500 ≤ c1 → c1 < 600 → 500 ≤ c2 → c2 < 600 → 500 ≤ c3 → c3 < 600 →
      fetch_usage ⟨te, [.status c1 b1, .status c2 b2, .status c3 b3] ++ rest, envs⟩ s =
        ⟨none, { s with consecutive_failures := s.consecutive_failures + 1 }, [],
          RETRY_DELAY + RETRY_DELAY⟩) ∧
    (∀ (s : MonState) (t : String) (c1 c2 c3 : Nat) (b1 b2 : Usage) (body : Usage)
       (rest : List HttpResult) (envs : List (List (Option String)))
       (te : List (Option String)),
      s.token = some t → t.isEmpty = false →
      500 ≤ c1 → c1 < 600 → 500 ≤ c2 → c2 < 600 → c3 < 400 →
      fetch_usage ⟨te, [.status c1 b1, .status c2 b2, .status c3 body] ++ rest, envs⟩ s =
        ⟨some body, { s with last_known_usage := some body, consecutive_failures := 0 }, [],
          RETRY_DELAY + RETRY_DELAY⟩) := by
  refine ⟨?_, ?_, ?_, ?_⟩
  · intro s t code body rest envs te ht hne h4 h5 h401
    rw [fetch_usage_cached_token _ s t ht hne,
      show MAX_RETRIES = 2 + 1 from rfl,
      fetch_attempts_client_error 2 code body rest envs t s [] 0 h4 h5 h401]
  · intro s t code body rest envs te ht hne h5 h6
    rw [fetch_usage_cached_token _ s t ht hne,
      show MAX_RETRIES = 2 + 1 from rfl,
      fetch_attempts_retryable_step 2 (.status code body) ⟨h5, h6⟩]
    norm_num
  · intro s t c1 c2 c3 b1 b2 b3 rest envs te ht hne h1a h1b h2a h2b h3a h3b
    rw [fetch_usage_cached_token _ s t ht hne,
      show MAX_RETRIES = 2 + 1 from rfl,
      show ([.status c1 b1, .status c2 b2, .status c3 b3] ++ rest : List HttpResult) =
        .status c1 b1 :: .status c2 b2 :: .status c3 b3 :: rest from rfl,
      fetch_attempts_retryable_step 2 (.status c1 b1) ⟨h1a, h1b⟩,
      fetch_attempts_retryable_step 1 (.status c2 b2) ⟨h2a, h2b⟩,
      fetch_attempts_retryable_step 0 (.status c3 b3) ⟨h3a, h3b⟩]
    norm_num
    rfl
  · intro s t c1 c2 c3 b1 b2 body rest envs te ht hne h1a h1b h2a h2b h3
    rw [fetch_usage_cached_token _ s t ht hne,
      show MAX_RETRIES = 2 + 1 from rfl,
      show ([.status c1 b1, .status c2 b2, .status c3 body] ++ rest : List HttpResult) =
        .status c1 b1 :: .status c2 b2 :: .status c3 body :: rest from rfl,
      fetch_attempts_retryable_step 2 (.status c1 b1) ⟨h1a, h1b⟩,
      fetch_attempts_retryable_step 1 (.status c2 b2) ⟨h2a, h2b⟩,
      fetch_attempts_ok 0 c3 body rest envs t s [] _ h3]
    norm_num

/-- Witness for C8: a 404 returns immediately with the untouched state
regardless of a success being available next; a 503 retries and reaches
a 200 on the third attempt. -/
theorem C8_client_server_errors_witness :
    fetch_usage ⟨[], [.status 404 emptyDict, .status 200 bareUsage], []⟩
        { initState with token := some "t" } =
      ⟨none, { initState with token := some "t" }, [], 0⟩ ∧
    fetch_usage ⟨[], [.status 503 emptyDict, .status 503 emptyDict, .status 200 bareUsage], []⟩
        { initState with token := some "t" } =
      ⟨some bareUsage,
        { { initState with token := some "t" } with
            last_known_usage := some bareUsage
            consecutive_failures := 0 },
        [], RETRY_DELAY + RETRY_DELAY⟩ :=
  ⟨C8_client_server_errors.1 _ "t" 404 emptyDict [.status 200 bareUsage] [] []
      rfl (by decide) (by decide) (by decide) (by decide),
    C8_client_server_errors.2.2.2 _ "t" 503 503 200 emptyDict emptyDict bareUsage [] [] []
      rfl (by decide) (by decide) (by decide) (by decide) (by decide) (by decide)⟩

/-- Claim C1, counterexample: with `consecutive_failures = 4` before the
fetch and a prior cached snapshot, a fetch that fails by exhausting its
retries increments the counter to 5 before `refresh` tests
`consecutive_failures < 5`, so the cycle renders the hard Error state
("Status: Connection failed", warning-glyph title), not the Cached
state the claim requires for every null-returning fetch. -/
theorem C1_cache_fallback_counterexample :
    (fetch_usage threeTimeouts { initState with token := some "t", consecutive_failures := 4, last_known_usage := some bareUsage }).usage? = none ∧
    (refresh threeTimeouts noParse "12:00" { initState with token := some "t", consecutive_failures := 4, last_known_usage := some bareUsage }).1.status_title =
      "Status: Connection failed" ∧
    (refresh threeTimeouts noParse "12:00" { initState with token := some "t", consecutive_failures := 4, last_known_usage := some bareUsage }).1.title = "⚠️0 0" := by
  decide

/-- Claim C1 as amended: when `fetch_usage` returns `None`, the cached
snapshot is substituted exactly when the cache is truthy and
`consecutive_failures < 5` *at the time of the check*, i.e. after the
increment a retry-exhausting fetch performs: in that case the cycle
renders the cached snapshot (after setting the transient Cached status
line); otherwise it renders the hard error state. (So with
`consecutive_failures = 4` before the fetch, a null return through a
non-incrementing path — missing token, failed 401 refresh, or client
error — renders Cached, while a retry-exhausting failure renders
Error.) -/
theorem C1_cache_fallback_amended (env : FetchEnv) (parse : String → Option Int)
    (now : String) (s : MonState)
    (hnone : (fetch_usage env s).usage? = none) :
    (∀ u, truthyUsage? (fetch_usage env s).state.last_known_usage = some u →
      ((fetch_usage env s).state.consecutive_failures < 5 →
        refresh env parse now s =
          ((renderUsage parse now u (cachedStatus (fetch_usage env s).state)).1,
            (fetch_usage env s).notifs ++
              (renderUsage parse now u (cachedStatus (fetch_usage env s).state)).2)) ∧
      (5 ≤ (fetch_usage env s).state.consecutive_failures →
        refresh env parse now s =
          (show_error_state "Connection failed" now (fetch_usage env s).state,
            (fetch_usage env s).notifs))) ∧
    (truthyUsage? (fetch_usage env s).state.last_known_usage = none →
      refresh env parse now s =
        (show_error_state "Connection failed" now (fetch_usage env s).state,
          (fetch_usage env s).notifs)) := by
  constructor
  · intro u hu
    constructor
    · intro hlt
      simp only [refresh, refreshAfterFetch, hnone,
        show truthyUsage? none = none from rfl, hu, hlt, if_true]
    · intro hge
      simp only [refresh, refreshAfterFetch, hnone,
        show truthyUsage? none = none from rfl, hu]
      rw [if_neg (not_lt.mpr hge)]
  · intro hcache
    simp only [refresh, refreshAfterFetch, hnone,
      show truthyUsage? none = none from rfl, hcache]

/-- Witness for the amended C1: a missing-token failure at
`consecutive_failures = 4` with a truthy cache renders the cached
snapshot; the same state at `consecutive_failures = 5` renders the
error state. -/
theorem C1_cache_fallback_amended_witness :
    refresh ⟨[none, none, none], [], []⟩ noParse "12:00"
        { initState with consecutive_failures := 4, last_known_usage := some bareUsage } =
      ((renderUsage noParse "12:00" bareUsage
          (cachedStatus (fetch_usage ⟨[none, none, none], [], []⟩
            { initState with consecutive_failures := 4, last_known_usage := some bareUsage }).state)).1,
        (fetch_usage ⟨[none, none, none], [], []⟩
            { initState with consecutive_failures := 4, last_known_usage := some bareUsage }).notifs ++
          (renderUsage noParse "12:00" bareUsage
            (cachedStatus (fetch_usage ⟨[none, none, none], [], []⟩
              { initState with consecutive_failures := 4, last_known_usage := some bareUsage }).state)).2) ∧
    refresh ⟨[none, none, none], [], []⟩ noParse "12:00"
        { initState with consecutive_failures := 5, last_known_usage := some bareUsage } =
      (show_error_state "Connection failed" "12:00"
          (fetch_usage ⟨[none, none, none], [], []⟩
            { initState with consecutive_failures := 5, last_known_usage := some bareUsage }).state,
        (fetch_usage ⟨[none, none, none], [], []⟩
          { initState with consecutive_failures := 5, last_known_usage := some bareUsage }).notifs) :=
  ⟨((C1_cache_fallback_amended _ noParse "12:00" _ (by decide)).1 bareUsage (by decide)).1
      (by decide),
    ((C1_cache_fallback_amended _ noParse "12:00" _ (by decide)).1 bareUsage (by decide)).2
      (by decide)⟩

theorem show_error_state_notified_levels (m now : String) (s1 : MonState) :
    (show_error_state m now s1).notified_levels = s1.notified_levels := by
  simp only [show_error_state]
  cases truthyUsage? s1.last_known_usage <;> rfl

theorem show_error_state_title_cache (m now : String) (s1 : MonState) (u : Usage)
    (h : truthyUsage? s1.last_known_usage = some u) :
    (show_error_state m now s1).title =
      "⚠️" ++ toString (pyInt ((u.five_hour.getD emptyMetric).utilization.getD 0 / 100 * 100))
        ++ " " ++
        toString (pyInt ((u.seven_day.getD emptyMetric).utilization.getD 0 / 100 * 100)) := by
  simp only [show_error_state, h]

theorem show_error_state_title_bare (m now : String) (s1 : MonState)
    (h : truthyUsage? s1.last_known_usage = none) :
    (show_error_state m now s1).title = "⚠️" := by
  simp only [show_error_state, h]

/-- Claim C9: whenever the cycle enters the hard Error state (the fetch
result is falsy and either the cache is falsy or the post-fetch failure
counter is at least 5), `refresh` is exactly `show_error_state` applied
after the fetch: no threshold check runs (`notified_levels` is exactly
the pre-cycle set and the only notifications a cycle can emit are the
auth one), and the compact title is the warning glyph followed by the
last-known percentages when a truthy cached snapshot exists, or the
bare warning glyph when none does. -/
theorem C9_error_state (env : FetchEnv) (parse : String → Option Int) (now : String)
    (s : MonState)
    (hfetch : truthyUsage? (fetch_usage env s).usage? = none)
    (hfail : truthyUsage? (fetch_usage env s).state.last_known_usage = none ∨
      5 ≤ (fetch_usage env s).state.consecutive_failures) :
    refresh env parse now s =
      (show_error_state "Connection failed" now (fetch_usage env s).state,
        (fetch_usage env s).notifs) ∧
    (refresh env parse now s).1.notified_levels = s.notified_levels ∧
    (∀ n ∈ (refresh env parse now s).2, n = authNotification) ∧
    (∀ u, truthyUsage? (fetch_usage env s).state.last_known_usage = some u →
      (refresh env parse now s).1.title =
        "⚠️" ++ toString (pyInt ((u.five_hour.getD emptyMetric).utilization.getD 0 / 100 * 100))
          ++ " " ++
          toString (pyInt ((u.seven_day.getD emptyMetric).utilization.getD 0 / 100 * 100))) ∧
    (truthyUsage? (fetch_usage env s).state.last_known_usage = none →
      (refresh env parse now s).1.title = "⚠️") := by
  have herr : refresh env parse now s =
      (show_error_state "Connection failed" now (fetch_usage env s).state,
        (fetch_usage env s).notifs) := by
    cases hc : truthyUsage? (fetch_usage env s).state.last_known_usage with
    | none => simp only [refresh, refreshAfterFetch, hfetch, hc]
    | some u =>
      rcases hfail with h | hge
      · rw [h] at hc; cases hc
      · simp only [refresh, refreshAfterFetch, hfetch, hc]
        rw [if_neg (not_lt.mpr hge)]
  refine ⟨herr, ?_, ?_, ?_, ?_⟩
  · rw [herr]
    exact (show_error_state_notified_levels _ _ _).trans (fetch_usage_notified_levels env s)
  · rw [herr]
    exact fetch_usage_notifs_sub env s
  · intro u hu
    rw [herr]
    exact show_error_state_title_cache _ _ _ u hu
  · intro hn
    rw [herr]
    exact show_error_state_title_bare _ _ _ hn

/-- Witness for C9: three timeouts from a cacheless state render the
bare-glyph error state; the same from a state caching `five_hour = 30`,
`seven_day = 55` at `consecutive_failures = 5` shows the last-known
percentages behind the glyph. -/
theorem C9_error_state_witness :
    refresh threeTimeouts noParse "12:00" { initState with token := some "t" } =
      (show_error_state "Connection failed" "12:00"
          (fetch_usage threeTimeouts { initState with token := some "t" }).state,
        (fetch_usage threeTimeouts { initState with token := some "t" }).notifs) ∧
    (refresh threeTimeouts noParse "12:00" { initState with token := some "t" }).1.title =
      "⚠️" ∧
    (refresh threeTimeouts noParse "12:00"
        { initState with
            token := some "t"
            consecutive_failures := 5
            last_known_usage := some ⟨some ⟨some 30, none⟩, some ⟨some 55, none⟩, false⟩
          }).1.title =
      "⚠️" ++ toString (pyInt ((((⟨some ⟨some 30, none⟩, some ⟨some 55, none⟩, false⟩ :
          Usage).five_hour.getD emptyMetric).utilization.getD 0 : ℚ) / 100 * 100)) ++ " " ++
        toString (pyInt ((((⟨some ⟨some 30, none⟩, some ⟨some 55, none⟩, false⟩ :
          Usage).seven_day.getD emptyMetric).utilization.getD 0 : ℚ) / 100 * 100)) :=
  ⟨(C9_error_state threeTimeouts noParse "12:00" _ (by decide) (Or.inl (by decide))).1,
    (C9_error_state threeTimeouts noParse "12:00" _ (by decide)
      (Or.inl (by decide))).2.2.2.2 (by decide),
    (C9_error_state threeTimeouts noParse "12:00" _ (by decide)
      (Or.inr (by decide))).2.2.2.1 _ (by decide)⟩

/-- Claim C10, counterexample: the empty JSON object `{}` has both
metric objects absent and can be fetched successfully, but `if not
usage:` is true for an empty dict, and so is `if self.last_known_usage`
falsy for the freshly cached `{}`; the cycle therefore renders the hard
error state ("Status: Connection failed", bare warning glyph) and never
displays 0% for that response. -/
theorem C10_missing_fields_counterexample :
    (fetch_usage ⟨[], [.status 200 emptyDict], []⟩ { initState with token := some "t"
      }).usage? = some emptyDict ∧
    (refresh ⟨[], [.status 200 emptyDict], []⟩ noParse "12:00"
      { initState with token := some "t" }).1.five_hour_title = "5h Limit: --" ∧
    (refresh ⟨[], [.status 200 emptyDict], []⟩ noParse "12:00"
      { initState with token := some "t" }).1.status_title = "Status: Connection failed" ∧
    (refresh ⟨[], [.status 200 emptyDict], []⟩ noParse "12:00"
      { initState with token := some "t" }).1.title = "⚠️" := by
  decide

/-- Claim C10 as amended: for a *non-empty* (truthy) fetched or cached
response object, a missing `five_hour` / `seven_day` sub-object or a
missing `utilization` field is rendered as a raw utilization of 0,
displaying 0% (first and second conjuncts); a truthy fetched object is
rendered and the cycle completes (third conjunct, the rendering
equation); and the same 0 default applies to cached data in the error
state (fourth conjunct). The empty object `{}` is the exception the
counterexample exhibits: it is falsy, so the cycle falls back to the
cache or the error state instead of rendering it. -/
theorem C10_missing_fields_amended :
    (∀ (parse : String → Option Int) (now : String) (s : MonState) (u : Usage),
      (u.five_hour = none ∨ ∃ m, u.five_hour = some m ∧ m.utilization = none) →
      (renderUsage parse now u s).1.five_hour_title =
        "5h: 0% used • resets " ++
          format_reset parse ((u.five_hour.getD emptyMetric).resets_at)) ∧
    (∀ (parse : String → Option Int) (now : String) (s : MonState) (u : Usage),
      (u.seven_day = none ∨ ∃ m, u.seven_day = some m ∧ m.utilization = none) →
      (renderUsage parse now u s).1.weekly_title =
        "Weekly: 0% used • resets " ++
          format_reset parse ((u.seven_day.getD emptyMetric).resets_at)) ∧
    (∀ (env : FetchEnv) (parse : String → Option Int) (now : String) (s : MonState)
       (u : Usage),
      (fetch_usage env s).usage? = some u → u.truthy = true →
      refresh env parse now s =
        ((renderUsage parse now u (fetch_usage env s).state).1,
          (fetch_usage env s).notifs ++
            (renderUsage parse now u (fetch_usage env s).state).2)) ∧
    (∀ (m now : String) (s : MonState) (u : Usage), s.last_known_usage = some u →
      u.truthy = true → u.five_hour = none → u.seven_day = none →
      (show_error_state m now s).title = "⚠️0 0") := by
  refine ⟨?_, ?_, ?_, ?_⟩
  · intro parse now s u h
    have h0 : (u.five_hour.getD emptyMetric).utilization.getD 0 = (0 : ℚ) := by
      rcases h with h | ⟨m, hm, hu⟩
      · rw [h]; rfl
      · rw [hm]
        simp only [Option.getD_some, hu]
        rfl
    simp only [renderUsage, h0]
    rw [show pyPct ((0 : ℚ)/100) = "0%" from by decide]
    rfl
  · intro parse now s u h
    have h0 : (u.seven_day.getD emptyMetric).utilization.getD 0 = (0 : ℚ) := by
      rcases h with h | ⟨m, hm, hu⟩
      · rw [h]; rfl
      · rw [hm]
        simp only [Option.getD_some, hu]
        rfl
    simp only [renderUsage, h0]
    rw [show pyPct ((0 : ℚ)/100) = "0%" from by decide]
    rfl
  · intro env parse now s u hf htr
    simp only [refresh, refreshAfterFetch, hf, truthyUsage?, htr, if_true]
  · intro m now s u hc htr h5 h7
    have hu : truthyUsage? s.last_known_usage = some u := by
      rw [hc]
      simp [truthyUsage?, htr]
    rw [show_error_state_title_cache m now s u hu, h5, h7]
    decide

/-- Witness for the amended C10: a response with `five_hour` absent and
`seven_day.utilization` absent renders both lines as 0%. -/
theorem C10_missing_fields_amended_witness :
    (renderUsage noParse "12:00" ⟨none, some ⟨none, some "2026-01-01"⟩, false⟩
        initState).1.five_hour_title =
      "5h: 0% used • resets " ++ format_reset noParse
        (((⟨none, some ⟨none, some "2026-01-01"⟩, false⟩ :
          Usage).five_hour.getD emptyMetric).resets_at) ∧
    (renderUsage noParse "12:00" ⟨none, some ⟨none, some "2026-01-01"⟩, false⟩
        initState).1.weekly_title =
      "Weekly: 0% used • resets " ++ format_reset noParse
        (((⟨none, some ⟨none, some "2026-01-01"⟩, false⟩ :
          Usage).seven_day.getD emptyMetric).resets_at) :=
  ⟨C10_missing_fields_amended.1 noParse "12:00" initState _ (Or.inl rfl),
    C10_missing_fields_amended.2.1 noParse "12:00" initState _
      (Or.inr ⟨⟨none, some "2026-01-01"⟩, rfl, rfl⟩)⟩
